import Mathlib

/-!
Shallow embedding of the task-planning and gated-execution orchestrator
(src/modules/task_planning.py, src/modules/execution.py) and of the
session approval endpoint (src/api/routes.py), together with theorems
checking the specification claims against it.

Python dictionaries holding JSON-like values are modelled as association
lists over a small value type; Python truthiness is modelled explicitly;
exceptions raised by handlers are modelled with Except; wall-clock
timestamps carried by feedback events are omitted (they carry no
control-flow information).
-/

namespace AgentSpec

/-- JSON-like values stored in parameter maps and task params.
Lists of strings cover every list the planner builds; a separate
constructor keeps Python int and float apart while both have the
standard numeric truthiness. -/
inductive Value where
  | noneV : Value
  | str : String → Value
  | int : Int → Value
  | rat : Rat → Value
  | strList : List String → Value
deriving DecidableEq, Repr

/-- Python truthiness of a value: None, 0, 0.0, empty string and empty
list are falsy. -/
def Value.falsy : Value → Bool
  | .noneV => true
  | .str s => s = ""
  | .int n => n = 0
  | .rat q => q = 0
  | .strList l => l.isEmpty

/-- A Python dict of values, as an association list (first match wins;
dict literals in the source never repeat a key). -/
def Params := List (String × Value)
deriving DecidableEq, Repr

/-- dict lookup returning an Option, the basis of dict.get. -/
def dictFind (ps : Params) (k : String) : Option Value :=
  match ps with
  | [] => none
  | (k2, v) :: rest => if k2 = k then some v else dictFind rest k

/-- Python dict.get(k): None when the key is absent. -/
def pyGet (ps : Params) (k : String) : Value :=
  (dictFind ps k).getD .noneV

/-- Python dict.get(k, d): the default only when the key is absent. -/
def pyGetD (ps : Params) (k : String) (d : Value) : Value :=
  (dictFind ps k).getD d

/-- Display of a value inside an f-string (descriptions only; no claim
inspects description text). -/
def Value.pyStr : Value → String
  | .noneV => "None"
  | .str s => s
  | .int n => toString n
  | .rat q => toString q
  | .strList l => String.intercalate ", " l

/-- Task lifecycle status (task_planning.py line 12). -/
inductive Status where
  | pending | in_progress | completed | failed
deriving DecidableEq, Repr

/-- Approval status (task_planning.py line 14). -/
inductive ApprovalStatus where
  | pending | approved | rejected
deriving DecidableEq, Repr

/-- The Task entity (task_planning.py, class Task). The uuid4 id is
modelled as a natural number; ids are opaque to all control flow. -/
structure Task where
  id : Nat
  action : String
  params : Params
  description : String
  status : Status
  requires_approval : Bool
  approval_status : ApprovalStatus
  error : Option String
deriving DecidableEq, Repr

/-- Task.__init__: fresh tasks start pending / approval pending / no
error, and always require approval. -/
def Task.init (id : Nat) (action : String) (params : Params)
    (description : String) : Task :=
  { id := id, action := action, params := params,
    description := description, status := .pending,
    requires_approval := true, approval_status := .pending,
    error := none }

/-- The normalisation the clarification handler itself applies to the
missing field (execution.py, _handle_request_clarification): a bare
string counts as a one-element list. -/
def missingNames : Value → List String
  | .str s => [s]
  | .strList l => l
  | _ => []

/-- NLU output as consumed by the planner: nlu_result.get("intent"),
nlu_result.get("original_text"), nlu_result.get("parameters", {}). -/
structure NLUResult where
  intent : Option String
  original_text : Value
  parameters : Params

/-- TaskPlanner._plan_app_switch. -/
def plan_app_switch (r : NLUResult) : List Task :=
  let app_name := pyGet r.parameters "app_name"
  if app_name.falsy then
    [Task.init 0 "request_clarification" [("missing", .str "app_name")]
      "Which app would you like to open?"]
  else
    [Task.init 0 "check_app_installed" [("app_name", app_name)]
      ("Checking if " ++ app_name.pyStr ++ " is installed"),
     Task.init 1 "launch_app" [("app_name", app_name)]
      ("Opening " ++ app_name.pyStr)]

/-- TaskPlanner._plan_calendar. -/
def plan_calendar (r : NLUResult) : List Task :=
  let ps := r.parameters
  let missing_params :=
    (if (pyGet ps "date").falsy then ["date"] else []) ++
    (if (pyGet ps "time").falsy then ["time"] else [])
  if missing_params ≠ [] then
    [Task.init 0 "request_clarification" [("missing", .strList missing_params)]
      ("I need more information: " ++ String.intercalate ", " missing_params)]
  else
    [Task.init 0 "check_calendar_availability"
      [("date", pyGet ps "date"), ("time", pyGet ps "time"),
       ("duration", pyGetD ps "duration" (.str "1 hour"))]
      ("Checking availability on " ++ (pyGet ps "date").pyStr ++ " at " ++
        (pyGet ps "time").pyStr),
     Task.init 1 "create_calendar_event"
      [("date", pyGet ps "date"), ("time", pyGet ps "time"),
       ("duration", pyGetD ps "duration" (.str "1 hour")),
       ("participants", pyGetD ps "participants" (.strList []))]
      ("Creating calendar event on " ++ (pyGet ps "date").pyStr ++ " at " ++
        (pyGet ps "time").pyStr)]

/-- TaskPlanner._plan_transaction. -/
def plan_transaction (r : NLUResult) : List Task :=
  let ps := r.parameters
  let missing_params :=
    (if (pyGet ps "amount").falsy then ["amount"] else []) ++
    (if (pyGet ps "recipient").falsy then ["recipient"] else [])
  if missing_params ≠ [] then
    [Task.init 0 "request_clarification" [("missing", .strList missing_params)]
      ("I need more information: " ++ String.intercalate ", " missing_params)]
  else
    let amount := pyGet ps "amount"
    let recipient := pyGet ps "recipient"
    let payment_method := pyGetD ps "payment_method" (.str "default")
    [Task.init 0 "verify_payment_details"
      [("amount", amount), ("recipient", recipient),
       ("payment_method", payment_method)]
      ("Verifying payment details for " ++ amount.pyStr ++ " to " ++
        recipient.pyStr),
     Task.init 1 "confirm_transaction"
      [("amount", amount), ("recipient", recipient),
       ("payment_method", payment_method)]
      ("Confirming payment of " ++ amount.pyStr ++ " to " ++ recipient.pyStr),
     Task.init 2 "execute_transaction"
      [("amount", amount), ("recipient", recipient),
       ("payment_method", payment_method)]
      ("Sending " ++ amount.pyStr ++ " to " ++ recipient.pyStr)]

/-- TaskPlanner._plan_analysis (no required-field check in the source). -/
def plan_analysis (r : NLUResult) : List Task :=
  let ps := r.parameters
  let metric := pyGet ps "metric"
  let time_range := pyGetD ps "time_range" (.str "last week")
  let grouping := pyGet ps "grouping"
  [Task.init 0 "fetch_analysis_data"
    [("metric", metric), ("time_range", time_range), ("grouping", grouping)]
    ("Fetching data for " ++ metric.pyStr ++ " analysis over " ++
      time_range.pyStr),
   Task.init 1 "generate_analysis"
    [("metric", metric), ("time_range", time_range), ("grouping", grouping)]
    ("Generating analysis for " ++ metric.pyStr),
   Task.init 2 "present_analysis_results"
    [("metric", metric), ("format", .str "chart")]
    ("Presenting " ++ metric.pyStr ++ " analysis results")]

/-- The intents registered in TaskPlanner.task_templates. -/
def registeredIntents : List String :=
  ["app_switch", "calendar", "transaction", "analysis"]

/-- TaskPlanner.create_task_plan: dispatch on the intent tag, fallback
task for unsupported or missing intent. -/
def create_task_plan (r : NLUResult) : List Task :=
  match r.intent with
  | some "app_switch" => plan_app_switch r
  | some "calendar" => plan_calendar r
  | some "transaction" => plan_transaction r
  | some "analysis" => plan_analysis r
  | _ => [Task.init 0 "unsupported_intent"
            [("original_text", r.original_text)]
            "I\x27m not sure how to handle this request yet."]

/-- The fixed required-field set each template tests (the analysis
template tests none). -/
def requiredFields : String → List String
  | "app_switch" => ["app_name"]
  | "calendar" => ["date", "time"]
  | "transaction" => ["amount", "recipient"]
  | _ => []

/-- Feedback event types (execution.py, the four feedback_callback
payload types). -/
inductive EType where
  | task_started | task_completed | task_failed | task_rejected
deriving DecidableEq, Repr

/-- A feedback event: type, post-mutation task snapshot, optional
handler result (task_completed) and optional error (task_failed).
The ISO timestamp is omitted. -/
structure Event where
  type : EType
  task : Task
  result : Option Value := none
  error : Option String := none
deriving DecidableEq, Repr

/-- One entry of the result list built by execute_tasks: appended only
in the success branch, pairing the completed task snapshot with the
handler output. -/
structure TaskResult where
  task : Task
  result : Value
deriving DecidableEq, Repr

/-- The observable outcome of execute_tasks: the returned result list,
the feedback event stream, and the final states of the task objects
(the processed prefix mutated in place, the rest untouched). -/
structure ExecOut where
  results : List TaskResult
  events : List Event
  tasks : List Task
deriving DecidableEq, Repr

/-- An action handler: params to either a result value or a raised
exception message (str(e)). -/
def Handler := Params → Except String Value

/-- A registry of handlers, the model of self.action_handlers lookup:
membership is reg a = some h. -/
def Registry := String → Option Handler

/-- ExecutionModule.execute_tasks. The approval oracle sees the task
snapshot as it is when the loop reaches it; on rejection the loop
breaks, returning the results built so far and leaving later tasks
untouched; unknown actions and handler exceptions mark the task failed
and continue. -/
def executeTasks (reg : Registry) (approval : Task → Bool) :
    List Task → ExecOut
  | [] => { results := [], events := [], tasks := [] }
  | task :: rest =>
    let startEv : Event := { type := .task_started, task := task }
    if task.requires_approval && !(approval task) then
      let t2 : Task := { task with
        approval_status := .rejected
        status := .failed
        error := some "User rejected this task" }
      { results := []
        events := [startEv, { type := .task_rejected, task := t2 }]
        tasks := t2 :: rest }
    else
      let t1 : Task :=
        if task.requires_approval then
          { task with approval_status := .approved, status := .in_progress }
        else
          { task with status := .in_progress }
      match reg task.action with
      | some handler =>
        match handler task.params with
        | .ok res =>
          let t2 : Task := { t1 with status := .completed }
          let tail := executeTasks reg approval rest
          { results := { task := t2, result := res } :: tail.results
            events := startEv ::
              { type := .task_completed, task := t2, result := some res } ::
              tail.events
            tasks := t2 :: tail.tasks }
        | .error e =>
          let t2 : Task := { t1 with status := .failed, error := some e }
          let tail := executeTasks reg approval rest
          { results := tail.results
            events := startEv ::
              { type := .task_failed, task := t2, error := some e } ::
              tail.events
            tasks := t2 :: tail.tasks }
      | none =>
        let t2 : Task := { t1 with
          status := .failed
          error := some ("Unknown action: " ++ task.action) }
        let tail := executeTasks reg approval rest
        { results := tail.results
          events := startEv ::
            { type := .task_failed, task := t2
              error := some ("Unknown action: " ++ task.action) } ::
            tail.events
          tasks := t2 :: tail.tasks }

/-- A stored session of the API layer (routes.py, active_sessions):
the task objects produced by the planner plus a session status. -/
structure Session where
  tasks : List Task
  status : String

/-- Outcome of an API call: a normal response, an HTTPException raised
deliberately (client-facing error), or an unhandled Python exception. -/
inductive ApiOutcome where
  | response (msg : String)
  | httpError (code : Nat) (detail : String)
  | pyCrash (msg : String)
deriving DecidableEq, Repr

/-- Session store lookup. -/
def findSession (sessions : List (String × Session)) (sid : String) :
    Option Session :=
  match sessions with
  | [] => none
  | (k, s) :: rest => if k = sid then some s else findSession rest sid

/-- routes.py approve_task. Sessions store Task objects (stored by
process_command as planner output), but the lookup loop calls
task.get("task_id") on each element; Task has no attribute get, so the
first loop iteration of any non-empty task list raises AttributeError,
which no handler in approve_task catches. With an empty task list the
loop finds nothing and the deliberate 404 is raised. -/
def approve_task (sessions : List (String × Session))
    (session_id task_id : String) (approved : Bool) : ApiOutcome :=
  match findSession sessions session_id with
  | none => .httpError 404 ("Session " ++ session_id ++ " not found")
  | some session =>
    match session.tasks with
    | [] => .httpError 404 ("Task " ++ task_id ++ " not found in session")
    | _ :: _ =>
      .pyCrash "AttributeError: \x27Task\x27 object has no attribute \x27get\x27"

/-- The per-task state invariant of the spec data model. -/
def TaskInv (t : Task) : Prop :=
  (t.status = .failed → t.error ≠ none) ∧
  (t.approval_status = .rejected → t.status = .failed)

lemma gate_false {approval : Task → Bool} {t : Task}
    (h : t.requires_approval = true → approval t = true) :
    (t.requires_approval && !(approval t)) = false := by
  cases hr : t.requires_approval with
  | false => simp
  | true => simp [h hr]

lemma absent_falsy (ps : Params) (k : String) (h : dictFind ps k = none) :
    (pyGet ps k).falsy = true := by
  simp [pyGet, h, Value.falsy]

/-- Splitting a run at a prefix that contains no rejected task: the
orchestrator processes the prefix completely and then processes the
rest, concatenating results, events and final task states. -/
lemma executeTasks_append (reg : Registry) (approval : Task → Bool)
    (pre rest : List Task)
    (h : ∀ t ∈ pre, t.requires_approval = true → approval t = true) :
    executeTasks reg approval (pre ++ rest) =
      { results := (executeTasks reg approval pre).results ++
          (executeTasks reg approval rest).results
        events := (executeTasks reg approval pre).events ++
          (executeTasks reg approval rest).events
        tasks := (executeTasks reg approval pre).tasks ++
          (executeTasks reg approval rest).tasks } := by
  induction pre with
  | nil => simp [executeTasks]
  | cons t pre ih =>
    have hg : (t.requires_approval && !(approval t)) = false :=
      gate_false (h t (by simp))
    have ih2 := ih (fun x hx => h x (by simp [hx]))
    simp only [List.cons_append, executeTasks, hg, Bool.false_eq_true,
      if_false]
    cases hreg : reg t.action with
    | none => simp [ih2]
    | some handler =>
      cases hh : handler t.params with
      | ok res => simp [hh, ih2]
      | error e => simp [hh, ih2]

/-- A rejection-free run emits exactly one task_started event per task. -/
lemma startedCount_no_reject (reg : Registry) (approval : Task → Bool)
    (l : List Task)
    (h : ∀ t ∈ l, t.requires_approval = true → approval t = true) :
    ((executeTasks reg approval l).events.countP
      (fun e => e.type == EType.task_started)) = l.length := by
  induction l with
  | nil => simp [executeTasks]
  | cons t l ih =>
    have hg : (t.requires_approval && !(approval t)) = false :=
      gate_false (h t (by simp))
    have ih2 := ih (fun x hx => h x (by simp [hx]))
    simp only [executeTasks, hg, Bool.false_eq_true, if_false]
    cases hreg : reg t.action with
    | none => simp [List.countP_cons, ih2]
    | some handler =>
      cases hh : handler t.params with
      | ok res => simp [hh, List.countP_cons, ih2]
      | error e => simp [hh, List.countP_cons, ih2]

/-- Whatever happens to a task, its step begins with a task_started
event carrying the pre-mutation snapshot. -/
lemma events_head_started (reg : Registry) (approval : Task → Bool)
    (t : Task) (rest : List Task) :
    (executeTasks reg approval (t :: rest)).events =
      { type := EType.task_started, task := t } ::
        (executeTasks reg approval (t :: rest)).events.tail := by
  by_cases hg : (t.requires_approval && !(approval t)) = true
  · simp [executeTasks, hg]
  · rw [Bool.not_eq_true] at hg
    simp only [executeTasks, hg, Bool.false_eq_true, if_false]
    cases hreg : reg t.action with
    | none => simp
    | some handler =>
      cases hh : handler t.params with
      | ok res => simp [hh]
      | error e => simp [hh]

/-- Unfolding one rejected step: execution.py lines 75-89. -/
lemma executeTasks_reject_cons (reg : Registry) (approval : Task → Bool)
    (T : Task) (post : List Task)
    (hT : T.requires_approval = true) (ha : approval T = false) :
    executeTasks reg approval (T :: post) =
      { results := []
        events := [{ type := EType.task_started, task := T },
          { type := EType.task_rejected, task := { T with approval_status := ApprovalStatus.rejected, status := Status.failed, error := some "User rejected this task" } }]
        tasks := { T with approval_status := ApprovalStatus.rejected, status := Status.failed, error := some "User rejected this task" } :: post } := by
  simp [executeTasks, hT, ha]

/-- Demo registry used by concrete witnesses: one succeeding handler,
one handler that raises, everything else unregistered. -/
def regDemo : Registry := fun a =>
  if a = "ok_action" then some (fun _ => Except.ok (Value.int 1))
  else if a = "boom_action" then some (fun _ => Except.error "boom")
  else none

/-- Demo approval oracle rejecting exactly the task with id 1. -/
def approveNotOne : Task → Bool := fun t => t.id != 1

def tA : Task := Task.init 0 "ok_action" [] "a"
def tB : Task := Task.init 1 "ok_action" [] "b"
def tC : Task := Task.init 2 "ok_action" [] "c"

/-- C1: if the approval oracle returns false for a task T requiring
approval (and execution reaches T, every earlier task being approved),
execute marks T approval rejected, failed, with error "User rejected
this task", emits a task_rejected event right after the task_started
event of T, attempts no later task (exactly pre.length + 1 task_started
events are emitted in the whole run) and returns the result list built
so far. -/
theorem rejection_halts_run (reg : Registry) (approval : Task → Bool)
    (pre post : List Task) (T : Task)
    (hpre : ∀ t ∈ pre, t.requires_approval = true → approval t = true)
    (hT : T.requires_approval = true) (ha : approval T = false) :
    executeTasks reg approval (pre ++ T :: post) =
      { results := (executeTasks reg approval pre).results
        events := (executeTasks reg approval pre).events ++
          [{ type := EType.task_started, task := T },
           { type := EType.task_rejected, task := { T with approval_status := ApprovalStatus.rejected, status := Status.failed, error := some "User rejected this task" } }]
        tasks := (executeTasks reg approval pre).tasks ++
          ({ T with approval_status := ApprovalStatus.rejected, status := Status.failed, error := some "User rejected this task" } :: post) } ∧
    (executeTasks reg approval (pre ++ T :: post)).events.countP
      (fun e => e.type == EType.task_started) = pre.length + 1 := by
  have happ := executeTasks_append reg approval pre (T :: post) hpre
  have hstep := executeTasks_reject_cons reg approval T post hT ha
  constructor
  · rw [happ, hstep]
    simp
  · rw [happ]
    simp [hstep, List.countP_append, List.countP_cons,
      startedCount_no_reject reg approval pre hpre]

/-- Witness for C1 at a concrete three-task plan whose middle task is
rejected. -/
theorem rejection_halts_run_witness :
    (∀ t ∈ [tA], t.requires_approval = true → approveNotOne t = true) ∧
    tB.requires_approval = true ∧
    approveNotOne tB = false ∧
    (executeTasks regDemo approveNotOne ([tA] ++ tB :: [tC]) =
      { results := (executeTasks regDemo approveNotOne [tA]).results
        events := (executeTasks regDemo approveNotOne [tA]).events ++
          [{ type := EType.task_started, task := tB },
           { type := EType.task_rejected, task := { tB with approval_status := ApprovalStatus.rejected, status := Status.failed, error := some "User rejected this task" } }]
        tasks := (executeTasks regDemo approveNotOne [tA]).tasks ++
          ({ tB with approval_status := ApprovalStatus.rejected, status := Status.failed, error := some "User rejected this task" } :: [tC]) } ∧
     (executeTasks regDemo approveNotOne ([tA] ++ tB :: [tC])).events.countP
       (fun e => e.type == EType.task_started) = [tA].length + 1) :=
  ⟨by decide, by decide, by decide,
    rejection_halts_run regDemo approveNotOne [tA] [tC] tB
      (by decide) (by decide) (by decide)⟩

/-- Unfolding one step whose action has no registered handler:
execution.py lines 116-126. -/
lemma executeTasks_unknown_cons (reg : Registry) (approval : Task → Bool)
    (T : Task) (post : List Task)
    (hgp : T.requires_approval = true → approval T = true)
    (hreg : reg T.action = none) :
    executeTasks reg approval (T :: post) =
      { results := (executeTasks reg approval post).results
        events := { type := EType.task_started, task := T } ::
          { type := EType.task_failed, task := { T with status := Status.failed, approval_status := (if T.requires_approval then ApprovalStatus.approved else T.approval_status), error := some ("Unknown action: " ++ T.action) }, error := some ("Unknown action: " ++ T.action) } ::
          (executeTasks reg approval post).events
        tasks := { T with status := Status.failed, approval_status := (if T.requires_approval then ApprovalStatus.approved else T.approval_status), error := some ("Unknown action: " ++ T.action) } ::
          (executeTasks reg approval post).tasks } := by
  cases hr : T.requires_approval with
  | true => simp [executeTasks, hr, hgp hr, hreg]
  | false => simp [executeTasks, hr, hreg]

/-- Unfolding one step whose handler raises: execution.py lines 127-137. -/
lemma executeTasks_raise_cons (reg : Registry) (approval : Task → Bool)
    (T : Task) (post : List Task) (h : Handler) (e : String)
    (hgp : T.requires_approval = true → approval T = true)
    (hreg : reg T.action = some h) (he : h T.params = Except.error e) :
    executeTasks reg approval (T :: post) =
      { results := (executeTasks reg approval post).results
        events := { type := EType.task_started, task := T } ::
          { type := EType.task_failed, task := { T with status := Status.failed, approval_status := (if T.requires_approval then ApprovalStatus.approved else T.approval_status), error := some e }, error := some e } ::
          (executeTasks reg approval post).events
        tasks := { T with status := Status.failed, approval_status := (if T.requires_approval then ApprovalStatus.approved else T.approval_status), error := some e } ::
          (executeTasks reg approval post).tasks } := by
  cases hr : T.requires_approval with
  | true => simp [executeTasks, hr, hgp hr, hreg, he]
  | false => simp [executeTasks, hr, hreg, he]

/-- C2: a task whose action is not in the registry is marked failed
with error "Unknown action: <action>", a task_failed event is emitted,
and execution continues with the rest of the plan; in a plan [A, B]
with A unregistered, B still gets its task_started event. -/
theorem unknown_action_continues (reg : Registry) (approval : Task → Bool)
    (pre post : List Task) (T : Task)
    (hpre : ∀ t ∈ pre, t.requires_approval = true → approval t = true)
    (hgp : T.requires_approval = true → approval T = true)
    (hreg : reg T.action = none) :
    executeTasks reg approval (pre ++ T :: post) =
      { results := (executeTasks reg approval pre).results ++
          (executeTasks reg approval post).results
        events := (executeTasks reg approval pre).events ++
          ({ type := EType.task_started, task := T } ::
           { type := EType.task_failed, task := { T with status := Status.failed, approval_status := (if T.requires_approval then ApprovalStatus.approved else T.approval_status), error := some ("Unknown action: " ++ T.action) }, error := some ("Unknown action: " ++ T.action) } ::
           (executeTasks reg approval post).events)
        tasks := (executeTasks reg approval pre).tasks ++
          ({ T with status := Status.failed, approval_status := (if T.requires_approval then ApprovalStatus.approved else T.approval_status), error := some ("Unknown action: " ++ T.action) } ::
           (executeTasks reg approval post).tasks) } ∧
    (∀ B rest2, post = B :: rest2 →
      ∃ tl, (executeTasks reg approval (pre ++ T :: post)).events =
        (executeTasks reg approval pre).events ++
          ({ type := EType.task_started, task := T } ::
           { type := EType.task_failed, task := { T with status := Status.failed, approval_status := (if T.requires_approval then ApprovalStatus.approved else T.approval_status), error := some ("Unknown action: " ++ T.action) }, error := some ("Unknown action: " ++ T.action) } ::
           { type := EType.task_started, task := B } :: tl)) := by
  have happ := executeTasks_append reg approval pre (T :: post) hpre
  have hstep := executeTasks_unknown_cons reg approval T post hgp hreg
  refine ⟨by rw [happ, hstep], ?_⟩
  intro B rest2 hpost
  subst hpost
  refine ⟨(executeTasks reg approval (B :: rest2)).events.tail, ?_⟩
  rw [happ, hstep]
  conv_lhs => rw [events_head_started reg approval B rest2]

/-- Witness for C2: plan [A, B] with A unregistered; B is started. -/
theorem unknown_action_continues_witness :
    (∀ t ∈ ([] : List Task), t.requires_approval = true → approveNotOne t = true) ∧
    ((Task.init 7 "mystery_action" [] "u").requires_approval = true →
      approveNotOne (Task.init 7 "mystery_action" [] "u") = true) ∧
    regDemo (Task.init 7 "mystery_action" [] "u").action = none ∧
    (executeTasks regDemo approveNotOne ([] ++ Task.init 7 "mystery_action" [] "u" :: [tC]) =
      { results := (executeTasks regDemo approveNotOne []).results ++
          (executeTasks regDemo approveNotOne [tC]).results
        events := (executeTasks regDemo approveNotOne []).events ++
          ({ type := EType.task_started, task := Task.init 7 "mystery_action" [] "u" } ::
           { type := EType.task_failed, task := { Task.init 7 "mystery_action" [] "u" with status := Status.failed, approval_status := (if (Task.init 7 "mystery_action" [] "u").requires_approval then ApprovalStatus.approved else (Task.init 7 "mystery_action" [] "u").approval_status), error := some ("Unknown action: " ++ (Task.init 7 "mystery_action" [] "u").action) }, error := some ("Unknown action: " ++ (Task.init 7 "mystery_action" [] "u").action) } ::
           (executeTasks regDemo approveNotOne [tC]).events)
        tasks := (executeTasks regDemo approveNotOne []).tasks ++
          ({ Task.init 7 "mystery_action" [] "u" with status := Status.failed, approval_status := (if (Task.init 7 "mystery_action" [] "u").requires_approval then ApprovalStatus.approved else (Task.init 7 "mystery_action" [] "u").approval_status), error := some ("Unknown action: " ++ (Task.init 7 "mystery_action" [] "u").action) } ::
           (executeTasks regDemo approveNotOne [tC]).tasks) } ∧
     (∀ B rest2, [tC] = B :: rest2 →
       ∃ tl, (executeTasks regDemo approveNotOne ([] ++ Task.init 7 "mystery_action" [] "u" :: [tC])).events =
         (executeTasks regDemo approveNotOne []).events ++
           ({ type := EType.task_started, task := Task.init 7 "mystery_action" [] "u" } ::
            { type := EType.task_failed, task := { Task.init 7 "mystery_action" [] "u" with status := Status.failed, approval_status := (if (Task.init 7 "mystery_action" [] "u").requires_approval then ApprovalStatus.approved else (Task.init 7 "mystery_action" [] "u").approval_status), error := some ("Unknown action: " ++ (Task.init 7 "mystery_action" [] "u").action) }, error := some ("Unknown action: " ++ (Task.init 7 "mystery_action" [] "u").action) } ::
            { type := EType.task_started, task := B } :: tl))) :=
  ⟨by decide, by decide, rfl,
    unknown_action_continues regDemo approveNotOne [] [tC]
      (Task.init 7 "mystery_action" [] "u") (by decide) (by decide) rfl⟩

/-- C3: a handler that raises never lets the exception escape execute:
the task is marked failed with the exception message as its error, a
task_failed event is emitted, and execution continues with the rest of
the plan (executeTasks is a total function, so no exception can
propagate to the caller by construction). -/
theorem handler_failure_contained (reg : Registry) (approval : Task → Bool)
    (pre post : List Task) (T : Task) (h : Handler) (e : String)
    (hpre : ∀ t ∈ pre, t.requires_approval = true → approval t = true)
    (hgp : T.requires_approval = true → approval T = true)
    (hreg : reg T.action = some h) (he : h T.params = Except.error e) :
    executeTasks reg approval (pre ++ T :: post) =
      { results := (executeTasks reg approval pre).results ++
          (executeTasks reg approval post).results
        events := (executeTasks reg approval pre).events ++
          ({ type := EType.task_started, task := T } ::
           { type := EType.task_failed, task := { T with status := Status.failed, approval_status := (if T.requires_approval then ApprovalStatus.approved else T.approval_status), error := some e }, error := some e } ::
           (executeTasks reg approval post).events)
        tasks := (executeTasks reg approval pre).tasks ++
          ({ T with status := Status.failed, approval_status := (if T.requires_approval then ApprovalStatus.approved else T.approval_status), error := some e } ::
           (executeTasks reg approval post).tasks) } := by
  have happ := executeTasks_append reg approval pre (T :: post) hpre
  have hstep := executeTasks_raise_cons reg approval T post h e hgp hreg he
  rw [happ, hstep]

/-- Witness for C3: plan [boom, C] whose first handler raises "boom";
the run records the failure and still processes C. -/
theorem handler_failure_contained_witness :
    (∀ t ∈ ([] : List Task), t.requires_approval = true → approveNotOne t = true) ∧
    ((Task.init 9 "boom_action" [] "x").requires_approval = true →
      approveNotOne (Task.init 9 "boom_action" [] "x") = true) ∧
    regDemo (Task.init 9 "boom_action" [] "x").action = some (fun _ => Except.error "boom") ∧
    (fun _ => Except.error "boom" : Handler) (Task.init 9 "boom_action" [] "x").params = Except.error "boom" ∧
    executeTasks regDemo approveNotOne ([] ++ Task.init 9 "boom_action" [] "x" :: [tC]) =
      { results := (executeTasks regDemo approveNotOne []).results ++
          (executeTasks regDemo approveNotOne [tC]).results
        events := (executeTasks regDemo approveNotOne []).events ++
          ({ type := EType.task_started, task := Task.init 9 "boom_action" [] "x" } ::
           { type := EType.task_failed, task := { Task.init 9 "boom_action" [] "x" with status := Status.failed, approval_status := (if (Task.init 9 "boom_action" [] "x").requires_approval then ApprovalStatus.approved else (Task.init 9 "boom_action" [] "x").approval_status), error := some "boom" }, error := some "boom" } ::
           (executeTasks regDemo approveNotOne [tC]).events)
        tasks := (executeTasks regDemo approveNotOne []).tasks ++
          ({ Task.init 9 "boom_action" [] "x" with status := Status.failed, approval_status := (if (Task.init 9 "boom_action" [] "x").requires_approval then ApprovalStatus.approved else (Task.init 9 "boom_action" [] "x").approval_status), error := some "boom" } ::
           (executeTasks regDemo approveNotOne [tC]).tasks) } :=
  ⟨by decide, by decide, rfl, rfl,
    handler_failure_contained regDemo approveNotOne [] [tC]
      (Task.init 9 "boom_action" [] "x") (fun _ => Except.error "boom") "boom"
      (by decide) (by decide) rfl rfl⟩

/-- Unfolding one successful step: execution.py lines 98-115. -/
lemma executeTasks_ok_cons (reg : Registry) (approval : Task → Bool)
    (T : Task) (post : List Task) (h : Handler) (res : Value)
    (hgp : T.requires_approval = true → approval T = true)
    (hreg : reg T.action = some h) (hok : h T.params = Except.ok res) :
    executeTasks reg approval (T :: post) =
      { results := { task := { T with status := Status.completed, approval_status := (if T.requires_approval then ApprovalStatus.approved else T.approval_status) }, result := res } ::
          (executeTasks reg approval post).results
        events := { type := EType.task_started, task := T } ::
          { type := EType.task_completed, task := { T with status := Status.completed, approval_status := (if T.requires_approval then ApprovalStatus.approved else T.approval_status) }, result := some res } ::
          (executeTasks reg approval post).events
        tasks := { T with status := Status.completed, approval_status := (if T.requires_approval then ApprovalStatus.approved else T.approval_status) } ::
          (executeTasks reg approval post).tasks } := by
  cases hr : T.requires_approval with
  | true => simp [executeTasks, hr, hgp hr, hreg, hok]
  | false => simp [executeTasks, hr, hreg, hok]

/-- Extending a well-shaped feedback stream by one non-rejected step. -/
lemma stream_shape_extend (reg : Registry) (approval : Task → Bool)
    (t : Task) (rest : List Task) (ev1 : Event)
    (h1 : (executeTasks reg approval (t :: rest)).events =
      { type := EType.task_started, task := t } :: ev1 ::
        (executeTasks reg approval rest).events)
    (h3 : ev1.type = EType.task_completed ∨ ev1.type = EType.task_failed)
    (hih : ∃ fs : List EType,
      fs.length ≤ rest.length ∧
      (∀ f ∈ fs, f = EType.task_completed ∨ f = EType.task_failed ∨ f = EType.task_rejected) ∧
      (executeTasks reg approval rest).events.map Event.type =
        (fs.map (fun f => [EType.task_started, f])).flatten ∧
      ((executeTasks reg approval rest).events.filter
        (fun e => e.type == EType.task_started)).map Event.task =
        rest.take fs.length ∧
      (∀ f ∈ fs.dropLast, f ≠ EType.task_rejected) ∧
      (fs.length = rest.length ∨ fs.getLast? = some EType.task_rejected)) :
    ∃ fs : List EType,
      fs.length ≤ (t :: rest).length ∧
      (∀ f ∈ fs, f = EType.task_completed ∨ f = EType.task_failed ∨ f = EType.task_rejected) ∧
      (executeTasks reg approval (t :: rest)).events.map Event.type =
        (fs.map (fun f => [EType.task_started, f])).flatten ∧
      ((executeTasks reg approval (t :: rest)).events.filter
        (fun e => e.type == EType.task_started)).map Event.task =
        (t :: rest).take fs.length ∧
      (∀ f ∈ fs.dropLast, f ≠ EType.task_rejected) ∧
      (fs.length = (t :: rest).length ∨ fs.getLast? = some EType.task_rejected) := by
  obtain ⟨fs, hlen, hmem, hmap, hfil, hdrop, hlast⟩ := hih
  have hnots : (ev1.type == EType.task_started) = false := by
    rcases h3 with h3 | h3 <;> simp [h3]
  refine ⟨ev1.type :: fs, ?_, ?_, ?_, ?_, ?_, ?_⟩
  · simpa using Nat.succ_le_succ hlen
  · intro f hf
    rcases List.mem_cons.mp hf with h | h
    · rcases h3 with h3 | h3
      · exact Or.inl (h ▸ h3)
      · exact Or.inr (Or.inl (h ▸ h3))
    · exact hmem f h
  · rw [h1]
    simp [hmap]
  · rw [h1]
    simp only [List.filter_cons, List.map_cons, hnots]
    simp [hfil, List.take_succ_cons]
  · intro f hf
    cases fs with
    | nil => simp at hf
    | cons f1 fs1 =>
      rw [List.dropLast_cons₂] at hf
      rcases List.mem_cons.mp hf with h | h
      · subst h
        rcases h3 with h3 | h3 <;> simp [h3]
      · exact hdrop f h
  · rcases hlast with h | h
    · exact Or.inl (by simp [h])
    · cases fs with
      | nil => simp at h
      | cons f1 fs1 =>
        exact Or.inr (by rw [List.getLast?_cons_cons]; exact h)

/-- C4: the feedback events of a run are a closed ordered stream: each
processed task contributes exactly one task_started event (carrying
that task, in plan order) immediately followed by exactly one of
task_completed, task_failed or task_rejected; a rejection can only be
the final contribution, every task after it contributing no event; and
the stream covers the whole plan unless it ends in a rejection. -/
theorem feedback_stream_shape (reg : Registry) (approval : Task → Bool)
    (tasks : List Task) :
    ∃ fs : List EType,
      fs.length ≤ tasks.length ∧
      (∀ f ∈ fs, f = EType.task_completed ∨ f = EType.task_failed ∨ f = EType.task_rejected) ∧
      (executeTasks reg approval tasks).events.map Event.type =
        (fs.map (fun f => [EType.task_started, f])).flatten ∧
      ((executeTasks reg approval tasks).events.filter
        (fun e => e.type == EType.task_started)).map Event.task =
        tasks.take fs.length ∧
      (∀ f ∈ fs.dropLast, f ≠ EType.task_rejected) ∧
      (fs.length = tasks.length ∨ fs.getLast? = some EType.task_rejected) := by
  induction tasks with
  | nil => exact ⟨[], by simp [executeTasks]⟩
  | cons t rest ih =>
    by_cases hg : (t.requires_approval && !(approval t)) = true
    · have hr : t.requires_approval = true := by
        rcases Bool.and_eq_true_iff.mp hg with ⟨h1, _⟩
        exact h1
      have ha : approval t = false := by
        rcases Bool.and_eq_true_iff.mp hg with ⟨_, h2⟩
        simpa using h2
      have hstep := executeTasks_reject_cons reg approval t rest hr ha
      refine ⟨[EType.task_rejected], by simp, by simp, ?_, ?_, by simp, Or.inr (by simp)⟩
      · rw [hstep]
        simp
      · rw [hstep]
        simp
    · rw [Bool.not_eq_true] at hg
      have hgp : t.requires_approval = true → approval t = true := by
        intro hr
        cases hap : approval t with
        | true => rfl
        | false =>
          rw [hr, hap] at hg
          simp at hg
      cases hreg : reg t.action with
      | none =>
        exact stream_shape_extend reg approval t rest _
          (by rw [executeTasks_unknown_cons reg approval t rest hgp hreg])
          (Or.inr rfl) ih
      | some handler =>
        cases hh : handler t.params with
        | ok res =>
          exact stream_shape_extend reg approval t rest _
            (by rw [executeTasks_ok_cons reg approval t rest handler res hgp hreg hh])
            (Or.inl rfl) ih
        | error e =>
          exact stream_shape_extend reg approval t rest _
            (by rw [executeTasks_raise_cons reg approval t rest handler e hgp hreg hh])
            (Or.inr rfl) ih

/-- Counterexample to C7 as stated: a plan whose only task ends the
run in status failed (unknown action, approval granted) produces an
empty result list, so the failed task has no corresponding TaskResult
entry at all. -/
theorem failed_task_without_result_entry :
    (executeTasks (fun _ => none) (fun _ => true)
      [Task.init 0 "mystery_action" [] "d"]).tasks.map Task.status =
        [Status.failed] ∧
    (executeTasks (fun _ => none) (fun _ => true)
      [Task.init 0 "mystery_action" [] "d"]).results = [] :=
  ⟨rfl, rfl⟩

/-- C7 (amended): in a run starting from pending tasks, the returned
result list pairs exactly the tasks that end the run completed, in
order, each with its handler output; tasks ending failed or rejected
contribute no entry. -/
theorem results_pair_completed (reg : Registry) (approval : Task → Bool)
    (tasks : List Task)
    (hp : ∀ t ∈ tasks, t.status = Status.pending) :
    (executeTasks reg approval tasks).results.map TaskResult.task =
      (executeTasks reg approval tasks).tasks.filter
        (fun t => t.status == Status.completed) ∧
    (∀ entry ∈ (executeTasks reg approval tasks).results,
      ∃ h, reg entry.task.action = some h ∧
        h entry.task.params = Except.ok entry.result) := by
  induction tasks with
  | nil => simp [executeTasks]
  | cons t rest ih =>
    have hrest : ∀ x ∈ rest, x.status = Status.pending :=
      fun x hx => hp x (List.mem_cons_of_mem t hx)
    have hih := ih hrest
    by_cases hg : (t.requires_approval && !(approval t)) = true
    · have hr : t.requires_approval = true :=
        (Bool.and_eq_true_iff.mp hg).1
      have ha : approval t = false := by
        have := (Bool.and_eq_true_iff.mp hg).2
        simpa using this
      rw [executeTasks_reject_cons reg approval t rest hr ha]
      constructor
      · have hnil : rest.filter (fun t => t.status == Status.completed) = [] := by
          rw [List.filter_eq_nil_iff]
          intro x hx
          simp [hrest x hx]
        simp [hnil]
      · intro entry hentry
        simp at hentry
    · rw [Bool.not_eq_true] at hg
      have hgp : t.requires_approval = true → approval t = true := by
        intro hr
        cases hap : approval t with
        | true => rfl
        | false =>
          rw [hr, hap] at hg
          simp at hg
      cases hreg : reg t.action with
      | none =>
        rw [executeTasks_unknown_cons reg approval t rest hgp hreg]
        simpa using hih
      | some handler =>
        cases hh : handler t.params with
        | ok res =>
          rw [executeTasks_ok_cons reg approval t rest handler res hgp hreg hh]
          constructor
          · simpa using hih.1
          · intro entry hentry
            simp only [List.mem_cons] at hentry
            rcases hentry with h | h
            · subst h
              exact ⟨handler, hreg, hh⟩
            · exact hih.2 entry h
        | error e =>
          rw [executeTasks_raise_cons reg approval t rest handler e hgp hreg hh]
          simpa using hih

/-- Witness for C7 (amended) at a concrete two-task plan: the first
task completes and is the unique result entry, the second fails. -/
theorem results_pair_completed_witness :
    (∀ t ∈ [tA, Task.init 5 "mystery_action" [] "m"], t.status = Status.pending) ∧
    ((executeTasks regDemo (fun _ => true) [tA, Task.init 5 "mystery_action" [] "m"]).results.map TaskResult.task =
      (executeTasks regDemo (fun _ => true) [tA, Task.init 5 "mystery_action" [] "m"]).tasks.filter
        (fun t => t.status == Status.completed) ∧
     (∀ entry ∈ (executeTasks regDemo (fun _ => true) [tA, Task.init 5 "mystery_action" [] "m"]).results,
       ∃ h, regDemo entry.task.action = some h ∧
         h entry.task.params = Except.ok entry.result)) :=
  ⟨by decide,
    results_pair_completed regDemo (fun _ => true)
      [tA, Task.init 5 "mystery_action" [] "m"] (by decide)⟩

/-- Running from fresh tasks preserves the task invariant on every
snapshot: every final task state and every event snapshot satisfies
it. -/
lemma inv_after_run (reg : Registry) (approval : Task → Bool) :
    ∀ tasks : List Task,
    (∀ t ∈ tasks, t.status = Status.pending ∧
      t.approval_status = ApprovalStatus.pending ∧ t.error = none) →
    (∀ t ∈ (executeTasks reg approval tasks).tasks, TaskInv t) ∧
    (∀ ev ∈ (executeTasks reg approval tasks).events, TaskInv ev.task) := by
  intro tasks
  induction tasks with
  | nil =>
    intro _
    simp [executeTasks]
  | cons t rest ih =>
    intro hp
    have hfr := hp t (List.mem_cons_self t rest)
    have hih := ih (fun x hx => hp x (List.mem_cons_of_mem t hx))
    have hinv_t : TaskInv t := by
      simp [TaskInv, hfr.1, hfr.2.1]
    by_cases hg : (t.requires_approval && !(approval t)) = true
    · have hr : t.requires_approval = true :=
        (Bool.and_eq_true_iff.mp hg).1
      have ha : approval t = false := by
        have := (Bool.and_eq_true_iff.mp hg).2
        simpa using this
      rw [executeTasks_reject_cons reg approval t rest hr ha]
      constructor
      · intro x hx
        simp only [List.mem_cons] at hx
        rcases hx with h | h
        · subst h
          simp [TaskInv]
        · have hx2 := hp x (List.mem_cons_of_mem t h)
          simp [TaskInv, hx2.1, hx2.2.1]
      · intro ev hev
        simp only [List.mem_cons] at hev
        rcases hev with h | h
        · subst h
          exact hinv_t
        · rcases h with h | h
          · subst h
            simp [TaskInv]
          · simp at h
    · rw [Bool.not_eq_true] at hg
      have hgp : t.requires_approval = true → approval t = true := by
        intro hr
        cases hap : approval t with
        | true => rfl
        | false =>
          rw [hr, hap] at hg
          simp at hg
      have hfail_inv : ∀ err : String, TaskInv { t with status := Status.failed, approval_status := (if t.requires_approval then ApprovalStatus.approved else t.approval_status), error := some err } := by
        intro err
        cases hr2 : t.requires_approval <;> simp [TaskInv, hr2]
      have hok_inv : TaskInv { t with status := Status.completed, approval_status := (if t.requires_approval then ApprovalStatus.approved else t.approval_status) } := by
        cases hr2 : t.requires_approval <;> simp [TaskInv, hr2, hfr.2.1]
      cases hreg : reg t.action with
      | none =>
        rw [executeTasks_unknown_cons reg approval t rest hgp hreg]
        constructor
        · intro x hx
          simp only [List.mem_cons] at hx
          rcases hx with h | h
          · subst h
            exact hfail_inv _
          · exact hih.1 x h
        · intro ev hev
          simp only [List.mem_cons] at hev
          rcases hev with h | h
          · subst h
            exact hinv_t
          · rcases h with h | h
            · subst h
              exact hfail_inv _
            · exact hih.2 ev h
      | some handler =>
        cases hh : handler t.params with
        | ok res =>
          rw [executeTasks_ok_cons reg approval t rest handler res hgp hreg hh]
          constructor
          · intro x hx
            simp only [List.mem_cons] at hx
            rcases hx with h | h
            · subst h
              exact hok_inv
            · exact hih.1 x h
          · intro ev hev
            simp only [List.mem_cons] at hev
            rcases hev with h | h
            · subst h
              exact hinv_t
            · rcases h with h | h
              · subst h
                exact hok_inv
              · exact hih.2 ev h
        | error e =>
          rw [executeTasks_raise_cons reg approval t rest handler e hgp hreg hh]
          constructor
          · intro x hx
            simp only [List.mem_cons] at hx
            rcases hx with h | h
            · subst h
              exact hfail_inv _
            · exact hih.1 x h
          · intro ev hev
            simp only [List.mem_cons] at hev
            rcases hev with h | h
            · subst h
              exact hinv_t
            · rcases h with h | h
              · subst h
                exact hfail_inv _
              · exact hih.2 ev h

/-- C8: Task.__init__ creates every task pending, approval pending, no
error, requires_approval true; and starting from such fresh tasks,
after every step of execute (every final task state and every event
snapshot) the invariant holds: failed implies a non-null error, and a
rejected approval implies a failed status. -/
theorem task_lifecycle_invariant :
    (∀ (id : Nat) (a : String) (p : Params) (d : String),
      (Task.init id a p d).status = Status.pending ∧
      (Task.init id a p d).approval_status = ApprovalStatus.pending ∧
      (Task.init id a p d).error = none ∧
      (Task.init id a p d).requires_approval = true) ∧
    (∀ (reg : Registry) (approval : Task → Bool) (tasks : List Task),
      (∀ t ∈ tasks, t.status = Status.pending ∧
        t.approval_status = ApprovalStatus.pending ∧ t.error = none) →
      (∀ t ∈ (executeTasks reg approval tasks).tasks, TaskInv t) ∧
      (∀ ev ∈ (executeTasks reg approval tasks).events, TaskInv ev.task)) :=
  ⟨fun _ _ _ _ => ⟨rfl, rfl, rfl, rfl⟩,
   fun reg approval tasks hp => inv_after_run reg approval tasks hp⟩

/-- Witness for C8 at a concrete mixed run (success, handler error,
rejection). -/
theorem task_lifecycle_invariant_witness :
    (∀ t ∈ [tA, Task.init 8 "boom_action" [] "y", tB], t.status = Status.pending ∧
      t.approval_status = ApprovalStatus.pending ∧ t.error = none) ∧
    ((∀ t ∈ (executeTasks regDemo approveNotOne [tA, Task.init 8 "boom_action" [] "y", tB]).tasks, TaskInv t) ∧
     (∀ ev ∈ (executeTasks regDemo approveNotOne [tA, Task.init 8 "boom_action" [] "y", tB]).events, TaskInv ev.task)) :=
  ⟨by decide,
    task_lifecycle_invariant.2 regDemo approveNotOne
      [tA, Task.init 8 "boom_action" [] "y", tB] (by decide)⟩

/-- A calendar plan degenerates to the clarification short-circuit
whenever the missing-field list is non-empty. -/
lemma calendar_clarify (r : NLUResult) (hi : r.intent = some "calendar")
    (hne : ((if (pyGet r.parameters "date").falsy then ["date"] else []) ++
      (if (pyGet r.parameters "time").falsy then ["time"] else [])) ≠ []) :
    create_task_plan r =
      [Task.init 0 "request_clarification"
        [("missing", Value.strList ((if (pyGet r.parameters "date").falsy then ["date"] else []) ++ (if (pyGet r.parameters "time").falsy then ["time"] else [])))]
        ("I need more information: " ++ String.intercalate ", " ((if (pyGet r.parameters "date").falsy then ["date"] else []) ++ (if (pyGet r.parameters "time").falsy then ["time"] else [])))] := by
  simp only [create_task_plan, hi, plan_calendar]
  rw [if_pos hne]

/-- A transaction plan degenerates to the clarification short-circuit
whenever the missing-field list is non-empty. -/
lemma transaction_clarify (r : NLUResult) (hi : r.intent = some "transaction")
    (hne : ((if (pyGet r.parameters "amount").falsy then ["amount"] else []) ++
      (if (pyGet r.parameters "recipient").falsy then ["recipient"] else [])) ≠ []) :
    create_task_plan r =
      [Task.init 0 "request_clarification"
        [("missing", Value.strList ((if (pyGet r.parameters "amount").falsy then ["amount"] else []) ++ (if (pyGet r.parameters "recipient").falsy then ["recipient"] else [])))]
        ("I need more information: " ++ String.intercalate ", " ((if (pyGet r.parameters "amount").falsy then ["amount"] else []) ++ (if (pyGet r.parameters "recipient").falsy then ["recipient"] else [])))] := by
  simp only [create_task_plan, hi, plan_transaction]
  rw [if_pos hne]

/-- The calendar request of the spec example: date given, time absent. -/
def rCalMissingTime : NLUResult :=
  { intent := some "calendar", original_text := Value.noneV,
    parameters := [("date", Value.str "2024-03-05")] }

/-- C5: whenever a required field of a registered intent template is
absent from the parameters, the planner returns a single-element plan
holding one request_clarification task whose params.missing (read with
the normalisation the clarification handler itself applies) lists every
absent required field; in particular the calendar example with only a
date yields exactly one request_clarification task with
params.missing = ["time"]. -/
theorem missing_required_field_clarifies (i : String) (r : NLUResult)
    (f : String) (hi : r.intent = some i) (hireg : i ∈ registeredIntents)
    (hf : f ∈ requiredFields i)
    (habs : dictFind r.parameters f = none) :
    (∃ t, create_task_plan r = [t] ∧ t.action = "request_clarification" ∧
      ∀ g ∈ requiredFields i, dictFind r.parameters g = none →
        g ∈ missingNames (pyGet t.params "missing")) ∧
    create_task_plan rCalMissingTime =
      [Task.init 0 "request_clarification" [("missing", Value.strList ["time"])]
        "I need more information: time"] := by
  refine ⟨?_, by decide⟩
  simp only [registeredIntents, List.mem_cons, List.not_mem_nil, or_false] at hireg
  rcases hireg with h | h | h | h
  · subst h
    simp only [requiredFields, List.mem_cons, List.not_mem_nil, or_false] at hf
    subst hf
    have hfal := absent_falsy r.parameters "app_name" habs
    refine ⟨Task.init 0 "request_clarification" [("missing", Value.str "app_name")] "Which app would you like to open?", ?_, rfl, ?_⟩
    · simp [create_task_plan, hi, plan_app_switch, hfal]
    · intro g hg hgabs
      simp only [requiredFields, List.mem_cons, List.not_mem_nil, or_false] at hg
      subst hg
      simp [pyGet, dictFind, missingNames, Task.init]
  · subst h
    have hne : ((if (pyGet r.parameters "date").falsy then ["date"] else []) ++
        (if (pyGet r.parameters "time").falsy then ["time"] else [])) ≠ [] := by
      simp only [requiredFields, List.mem_cons, List.not_mem_nil, or_false] at hf
      have hfal := absent_falsy r.parameters f habs
      rcases hf with h | h <;> subst h <;> simp [hfal]
    refine ⟨_, calendar_clarify r hi hne, rfl, ?_⟩
    intro g hg hgabs
    have hgfal := absent_falsy r.parameters g hgabs
    simp only [requiredFields, List.mem_cons, List.not_mem_nil, or_false] at hg
    rcases hg with h | h <;> subst h <;>
      simp [pyGet, dictFind, missingNames, Task.init, hgabs, Value.falsy]
  · subst h
    have hne : ((if (pyGet r.parameters "amount").falsy then ["amount"] else []) ++
        (if (pyGet r.parameters "recipient").falsy then ["recipient"] else [])) ≠ [] := by
      simp only [requiredFields, List.mem_cons, List.not_mem_nil, or_false] at hf
      have hfal := absent_falsy r.parameters f habs
      rcases hf with h | h <;> subst h <;> simp [hfal]
    refine ⟨_, transaction_clarify r hi hne, rfl, ?_⟩
    intro g hg hgabs
    have hgfal := absent_falsy r.parameters g hgabs
    simp only [requiredFields, List.mem_cons, List.not_mem_nil, or_false] at hg
    rcases hg with h | h <;> subst h <;>
      simp [pyGet, dictFind, missingNames, Task.init, hgabs, Value.falsy]
  · subst h
    simp [requiredFields] at hf

/-- Witness for C5: an app_switch request with an empty parameter map. -/
theorem missing_required_field_clarifies_witness :
    ({ intent := some "app_switch", original_text := Value.noneV, parameters := [] } : NLUResult).intent = some "app_switch" ∧
    "app_switch" ∈ registeredIntents ∧
    "app_name" ∈ requiredFields "app_switch" ∧
    dictFind ({ intent := some "app_switch", original_text := Value.noneV, parameters := [] } : NLUResult).parameters "app_name" = none ∧
    ((∃ t, create_task_plan { intent := some "app_switch", original_text := Value.noneV, parameters := [] } = [t] ∧
        t.action = "request_clarification" ∧
        ∀ g ∈ requiredFields "app_switch",
          dictFind ({ intent := some "app_switch", original_text := Value.noneV, parameters := [] } : NLUResult).parameters g = none →
            g ∈ missingNames (pyGet t.params "missing")) ∧
     create_task_plan rCalMissingTime =
       [Task.init 0 "request_clarification" [("missing", Value.strList ["time"])]
         "I need more information: time"]) :=
  ⟨rfl, by decide, by decide, rfl,
    missing_required_field_clarifies "app_switch"
      { intent := some "app_switch", original_text := Value.noneV, parameters := [] }
      "app_name" rfl (by decide) (by decide) rfl⟩

/-- C6: every registered template tests a fixed required-field set of
its intent family against the parameters and short-circuits to the
single clarification plan exactly when some member of that set is
missing (Python-falsy, which subsumes literal absence); the sets are
app_name for app_switch, date and time for calendar, amount and
recipient for transaction, and the empty set for analysis. -/
theorem template_required_fields (r : NLUResult) (i : String)
    (hi : r.intent = some i) (hireg : i ∈ registeredIntents) :
    ((∃ t, create_task_plan r = [t] ∧ t.action = "request_clarification") ↔
      ∃ f ∈ requiredFields i, (pyGet r.parameters f).falsy = true) ∧
    requiredFields "app_switch" = ["app_name"] ∧
    requiredFields "calendar" = ["date", "time"] ∧
    requiredFields "transaction" = ["amount", "recipient"] ∧
    requiredFields "analysis" = [] := by
  refine ⟨?_, rfl, rfl, rfl, rfl⟩
  simp only [registeredIntents, List.mem_cons, List.not_mem_nil, or_false] at hireg
  rcases hireg with h | h | h | h
  · subst h
    by_cases hd : (pyGet r.parameters "app_name").falsy = true
    · constructor
      · intro _
        exact ⟨"app_name", by simp [requiredFields], hd⟩
      · intro _
        exact ⟨Task.init 0 "request_clarification" [("missing", Value.str "app_name")] "Which app would you like to open?",
          by simp [create_task_plan, hi, plan_app_switch, hd], rfl⟩
    · constructor
      · rintro ⟨t, hplan, hact⟩
        simp [create_task_plan, hi, plan_app_switch, hd] at hplan
      · rintro ⟨f, hf, hfal⟩
        simp only [requiredFields, List.mem_cons, List.not_mem_nil, or_false] at hf
        subst hf
        exact absurd hfal hd
  · subst h
    by_cases hd : (pyGet r.parameters "date").falsy = true <;>
      by_cases ht : (pyGet r.parameters "time").falsy = true
    · exact ⟨fun _ => ⟨"date", by simp [requiredFields], hd⟩,
        fun _ => ⟨_, calendar_clarify r hi (by simp [hd]), rfl⟩⟩
    · exact ⟨fun _ => ⟨"date", by simp [requiredFields], hd⟩,
        fun _ => ⟨_, calendar_clarify r hi (by simp [hd]), rfl⟩⟩
    · exact ⟨fun _ => ⟨"time", by simp [requiredFields], ht⟩,
        fun _ => ⟨_, calendar_clarify r hi (by simp [ht]), rfl⟩⟩
    · constructor
      · rintro ⟨t, hplan, hact⟩
        simp [create_task_plan, hi, plan_calendar, hd, ht] at hplan
      · rintro ⟨f, hf, hfal⟩
        simp only [requiredFields, List.mem_cons, List.not_mem_nil, or_false] at hf
        rcases hf with h | h <;> subst h
        · exact absurd hfal hd
        · exact absurd hfal ht
  · subst h
    by_cases hd : (pyGet r.parameters "amount").falsy = true <;>
      by_cases ht : (pyGet r.parameters "recipient").falsy = true
    · exact ⟨fun _ => ⟨"amount", by simp [requiredFields], hd⟩,
        fun _ => ⟨_, transaction_clarify r hi (by simp [hd]), rfl⟩⟩
    · exact ⟨fun _ => ⟨"amount", by simp [requiredFields], hd⟩,
        fun _ => ⟨_, transaction_clarify r hi (by simp [hd]), rfl⟩⟩
    · exact ⟨fun _ => ⟨"recipient", by simp [requiredFields], ht⟩,
        fun _ => ⟨_, transaction_clarify r hi (by simp [ht]), rfl⟩⟩
    · constructor
      · rintro ⟨t, hplan, hact⟩
        simp [create_task_plan, hi, plan_transaction, hd, ht] at hplan
      · rintro ⟨f, hf, hfal⟩
        simp only [requiredFields, List.mem_cons, List.not_mem_nil, or_false] at hf
        rcases hf with h | h <;> subst h
        · exact absurd hfal hd
        · exact absurd hfal ht
  · subst h
    constructor
    · rintro ⟨t, hplan, hact⟩
      simp [create_task_plan, hi, plan_analysis] at hplan
    · rintro ⟨f, hf, hfal⟩
      simp [requiredFields] at hf

/-- Witness for C6 at the calendar example with the time missing. -/
theorem template_required_fields_witness :
    rCalMissingTime.intent = some "calendar" ∧
    "calendar" ∈ registeredIntents ∧
    (((∃ t, create_task_plan rCalMissingTime = [t] ∧ t.action = "request_clarification") ↔
        ∃ f ∈ requiredFields "calendar", (pyGet rCalMissingTime.parameters f).falsy = true) ∧
      requiredFields "app_switch" = ["app_name"] ∧
      requiredFields "calendar" = ["date", "time"] ∧
      requiredFields "transaction" = ["amount", "recipient"] ∧
      requiredFields "analysis" = []) :=
  ⟨rfl, by decide,
    template_required_fields rCalMissingTime "calendar" rfl (by decide)⟩

/-- C10: the planner templates test required parameters for Python
truthiness, not presence: a transaction whose amount is present but 0
or 0.0, and an app_switch whose app_name is present but the empty
string, are treated as missing and produce the single
request_clarification plan naming that field. -/
theorem falsy_required_param_clarifies :
    (∀ r : NLUResult, r.intent = some "transaction" →
      (pyGet r.parameters "amount" = Value.int 0 ∨
        pyGet r.parameters "amount" = Value.rat 0) →
      ∃ t, create_task_plan r = [t] ∧ t.action = "request_clarification" ∧
        "amount" ∈ missingNames (pyGet t.params "missing")) ∧
    (∀ r : NLUResult, r.intent = some "app_switch" →
      pyGet r.parameters "app_name" = Value.str "" →
      create_task_plan r =
        [Task.init 0 "request_clarification" [("missing", Value.str "app_name")]
          "Which app would you like to open?"]) := by
  constructor
  · intro r hi ham
    have hfal : (pyGet r.parameters "amount").falsy = true := by
      rcases ham with h | h <;> simp [h, Value.falsy]
    refine ⟨_, transaction_clarify r hi (by simp [hfal]), rfl, ?_⟩
    have hfal2 : ((dictFind r.parameters "amount").getD Value.noneV).falsy = true := hfal
    simp [pyGet, dictFind, missingNames, Task.init, hfal2]
  · intro r hi h
    have hfal : (pyGet r.parameters "app_name").falsy = true := by
      simp [h, Value.falsy]
    simp [create_task_plan, hi, plan_app_switch, hfal]

/-- The concrete zero-amount transaction request. -/
def rTxZero : NLUResult :=
  { intent := some "transaction", original_text := Value.noneV,
    parameters := [("amount", Value.int 0), ("recipient", Value.str "Alice")] }

/-- The concrete empty-app-name request. -/
def rAppEmpty : NLUResult :=
  { intent := some "app_switch", original_text := Value.noneV,
    parameters := [("app_name", Value.str "")] }

/-- Witness for C10 at amount = 0 and app_name = "". -/
theorem falsy_required_param_clarifies_witness :
    rTxZero.intent = some "transaction" ∧
    (pyGet rTxZero.parameters "amount" = Value.int 0 ∨
      pyGet rTxZero.parameters "amount" = Value.rat 0) ∧
    (∃ t, create_task_plan rTxZero = [t] ∧ t.action = "request_clarification" ∧
      "amount" ∈ missingNames (pyGet t.params "missing")) ∧
    rAppEmpty.intent = some "app_switch" ∧
    pyGet rAppEmpty.parameters "app_name" = Value.str "" ∧
    create_task_plan rAppEmpty =
      [Task.init 0 "request_clarification" [("missing", Value.str "app_name")]
        "Which app would you like to open?"] :=
  ⟨rfl, Or.inl (by decide),
    falsy_required_param_clarifies.1 rTxZero rfl (Or.inl (by decide)),
    rfl, by decide,
    falsy_required_param_clarifies.2 rAppEmpty rfl (by decide)⟩

/-- C9: the approval endpoint surfaces an unknown session id as a 404
client error, and an unknown task id in an empty session likewise; but
for any stored session holding at least one task (the case the
endpoint exists for), the task lookup loop calls .get on Task objects
and crashes with an unhandled AttributeError instead of returning the
404 the claim demands. -/
theorem approve_task_unknown_ids :
    approve_task [] "sess-1" "task-1" true =
      ApiOutcome.httpError 404 "Session sess-1 not found" ∧
    approve_task [("sess-1", { tasks := [], status := "pending_approval" })]
        "sess-1" "task-1" true =
      ApiOutcome.httpError 404 "Task task-1 not found in session" ∧
    approve_task
        [("sess-1", { tasks := [Task.init 0 "launch_app" [("app_name", Value.str "calendar")] "Opening calendar"], status := "pending_approval" })]
        "sess-1" "no-such-task" true =
      ApiOutcome.pyCrash "AttributeError: \x27Task\x27 object has no attribute \x27get\x27" :=
  ⟨rfl, rfl, rfl⟩

end AgentSpec
